import Mathlib

/-!
Verification of the declared C API surface of the lovetrack repository.

The repository consists of two C header files, src/lovetrack_lib.h (a
polling variant) and src/trackpad_lib.h (a callback variant), with no
implementation bodies.  We embed the declarations of both headers as
concrete Lean data: a small model of the C types that occur, parameters,
function signatures, documented return semantics (taken from the doc
comments in the headers), and top-level declarations.  Each header becomes
a literal list of declarations transcribed from the source, and the claims
about the API surface are proved by computation over these lists.
-/

/-- The C types occurring in the two headers: int, float, void, a named
type (struct or typedef reference), and a pointer whose pointee may be
const-qualified. -/
inductive CType where
  | cInt : CType
  | cFloat : CType
  | cVoid : CType
  | cNamed : String → CType
  | cPtr : CType → Bool → CType
deriving DecidableEq, BEq, Repr

/-- A named, typed binder: used both for function parameters and for
struct fields (name together with its C type). -/
structure Param where
  pname : String
  ptype : CType
deriving DecidableEq, BEq, Repr

/-- A C function signature: parameter list and return type. -/
structure FunSig where
  params : List Param
  ret : CType
deriving DecidableEq, BEq, Repr

/-- The documented meaning of a return value, taken from the comments in
the headers: no documented return, a documented status code (success and
failure values), or a documented count of fingers on the trackpad. -/
inductive ReturnDoc where
  | noDoc : ReturnDoc
  | statusCode : Int → Int → ReturnDoc
  | fingerCount : ReturnDoc
deriving DecidableEq, BEq, Repr

/-- A top-level declaration of a header: a struct with its field list, a
typedef of a function-pointer type, or a function declaration.  The final
Bool of a function declaration records whether the source provides an
implementation body for it. -/
inductive Decl where
  | structDecl : String → List Param → Decl
  | typedefFunPtr : String → FunSig → Decl
  | funDecl : String → FunSig → ReturnDoc → Bool → Decl
deriving DecidableEq, BEq, Repr

/-- The fields of the struct TrackpadFinger as declared in
src/lovetrack_lib.h lines 5-13. -/
def lovetrackFingerFields : List Param :=
  [⟨"id", .cInt⟩, ⟨"x", .cFloat⟩, ⟨"y", .cFloat⟩,
   ⟨"vx", .cFloat⟩, ⟨"vy", .cFloat⟩, ⟨"angle", .cFloat⟩,
   ⟨"major_axis", .cFloat⟩, ⟨"minor_axis", .cFloat⟩,
   ⟨"size", .cFloat⟩, ⟨"state", .cInt⟩]

/-- The fields of the struct TrackpadFinger as declared in
src/trackpad_lib.h lines 5-13. -/
def trackpadFingerFields : List Param :=
  [⟨"id", .cInt⟩, ⟨"x", .cFloat⟩, ⟨"y", .cFloat⟩,
   ⟨"vx", .cFloat⟩, ⟨"vy", .cFloat⟩, ⟨"angle", .cFloat⟩,
   ⟨"major_axis", .cFloat⟩, ⟨"minor_axis", .cFloat⟩,
   ⟨"size", .cFloat⟩, ⟨"state", .cInt⟩]

/-- The declarations of src/lovetrack_lib.h (the polling variant), in
source order: the TrackpadFinger struct, then
trackpad_start (documented to return 0 on success and -1 on failure),
trackpad_poll (documented to return the number of fingers currently on the
trackpad), trackpad_reset and trackpad_stop.  None has a body. -/
def lovetrack_lib : List Decl :=
  [ .structDecl "TrackpadFinger" lovetrackFingerFields,
    .funDecl "trackpad_start" ⟨[], .cInt⟩ (.statusCode 0 (-1)) false,
    .funDecl "trackpad_poll"
      ⟨[⟨"fingers", .cPtr (.cNamed "TrackpadFinger") false⟩,
        ⟨"max_fingers", .cInt⟩], .cInt⟩ .fingerCount false,
    .funDecl "trackpad_reset"
      ⟨[⟨"fingers", .cPtr (.cNamed "TrackpadFinger") false⟩,
        ⟨"max_fingers", .cInt⟩], .cVoid⟩ .noDoc false,
    .funDecl "trackpad_stop" ⟨[], .cVoid⟩ .noDoc false ]

/-- The declarations of src/trackpad_lib.h (the callback variant), in
source order: the TrackpadFinger struct, the TrackpadCallback
function-pointer typedef (whose second parameter is a pointer to const
TrackpadFinger), then trackpad_start (taking the callback) and
trackpad_stop.  None has a body. -/
def trackpad_lib : List Decl :=
  [ .structDecl "TrackpadFinger" trackpadFingerFields,
    .typedefFunPtr "TrackpadCallback"
      ⟨[⟨"nFingers", .cInt⟩,
        ⟨"fingers", .cPtr (.cNamed "TrackpadFinger") true⟩], .cVoid⟩,
    .funDecl "trackpad_start"
      ⟨[⟨"callback", .cNamed "TrackpadCallback"⟩], .cVoid⟩ .noDoc false,
    .funDecl "trackpad_stop" ⟨[], .cVoid⟩ .noDoc false ]

/-- The name introduced by a declaration. -/
def Decl.declName : Decl → String
  | .structDecl s _ => s
  | .typedefFunPtr t _ => t
  | .funDecl f _ _ _ => f

/-- Whether a declaration is a function declaration. -/
def Decl.isFun : Decl → Bool
  | .funDecl _ _ _ _ => true
  | _ => false

/-- Whether a declaration is a struct declaration. -/
def Decl.isStruct : Decl → Bool
  | .structDecl _ _ => true
  | _ => false

/-- Whether a declaration is a function-pointer typedef. -/
def Decl.isTypedef : Decl → Bool
  | .typedefFunPtr _ _ => true
  | _ => false

/-- Whether a function declaration carries an implementation body. -/
def Decl.bodyPresent : Decl → Bool
  | .funDecl _ _ _ b => b
  | _ => false

/-- The signature of a function declaration, if any. -/
def funSigOf : Decl → Option FunSig
  | .funDecl _ s _ _ => some s
  | _ => none

/-- The documented return semantics of a function declaration, if any. -/
def retDocOf : Decl → Option ReturnDoc
  | .funDecl _ _ d _ => some d
  | _ => none

/-- The error signal of a declaration: the documented (success, failure)
status codes of a function declaration whose return is documented as a
status code, and nothing otherwise. -/
def errorSignal : Decl → Option (Int × Int)
  | .funDecl _ _ (.statusCode s f) _ => some (s, f)
  | _ => none

/-- Look a declaration up by name in a header. -/
def findDecl (ds : List Decl) (n : String) : Option Decl :=
  ds.find? fun d => d.declName == n

/-- The signature of the named function in a header, if declared. -/
def funSigOfName (ds : List Decl) (n : String) : Option FunSig :=
  (findDecl ds n).bind funSigOf

/-- The return type of the named function in a header, if declared. -/
def retTypeOfName (ds : List Decl) (n : String) : Option CType :=
  (funSigOfName ds n).map FunSig.ret

/-- The error signal of the named declaration in a header, if any. -/
def errorSignalOfName (ds : List Decl) (n : String) : Option (Int × Int) :=
  (findDecl ds n).bind errorSignal

/-- Whether a C type is a pointer (of either constness) to the
TrackpadFinger struct. -/
def isFingerPtr : CType → Bool
  | .cPtr (.cNamed s) _ => s == "TrackpadFinger"
  | _ => false

/-- Whether a signature mentions finger data: some parameter is a pointer
to TrackpadFinger. -/
def touchesFingerData (s : FunSig) : Bool :=
  s.params.any fun p => isFingerPtr p.ptype

/-- Whether a signature follows the caller-supplied-array convention of
the polling header: exactly a caller-allocated non-const pointer to
TrackpadFinger named fingers followed by an int capacity named
max_fingers. -/
def takesCallerArray (s : FunSig) : Bool :=
  match s.params with
  | [a, c] =>
      a.pname == "fingers" &&
      a.ptype == .cPtr (.cNamed "TrackpadFinger") false &&
      c.pname == "max_fingers" && c.ptype == .cInt
  | _ => false

/-- Whether a signature returns a pointer type (a library-owned buffer
could only be handed back through a returned pointer). -/
def returnsPointer (s : FunSig) : Bool :=
  match s.ret with
  | .cPtr _ _ => true
  | _ => false

/-- Whether the pointee can be written through a value of the given type:
only a pointer to a non-const pointee permits stores through it. -/
def writableThrough : CType → Bool
  | .cPtr _ constQ => !constQ
  | _ => false

/-- C-level compatibility of two function signatures for the purpose of
declaring the same external name twice in one translation unit: the
return types must agree and the parameter types must agree position by
position (parameter names are irrelevant). -/
def sigCompatible (a b : FunSig) : Bool :=
  a.ret == b.ret && a.params.map Param.ptype == b.params.map Param.ptype

/-- Claim C1: across both declared surfaces, the polling variants
trackpad_start is the only declaration carrying an error signal, its
documented codes are 0 for success and -1 for failure, and no declaration
of the callback header carries any error signal. -/
theorem c1_start_only_error_signal :
    ((lovetrack_lib ++ trackpad_lib).filterMap
        (fun d => (errorSignal d).map fun e => (d.declName, e)))
      = [("trackpad_start", ((0 : Int), (-1 : Int)))] ∧
    errorSignalOfName lovetrack_lib "trackpad_start" = some (0, -1) ∧
    (trackpad_lib.all fun d => (errorSignal d).isNone) = true := by
  decide

/-- Claim C2: trackpad_poll in the polling header takes exactly a
caller-supplied TrackpadFinger array pointer together with its capacity
max_fingers, returns int, and its return value is documented as the count
of fingers currently on the trackpad. -/
theorem c2_poll_caller_supplied_count :
    ((findDecl lovetrack_lib "trackpad_poll").map
        (fun d => (funSigOf d, retDocOf d)))
      = some (some ⟨[⟨"fingers", .cPtr (.cNamed "TrackpadFinger") false⟩,
                     ⟨"max_fingers", .cInt⟩], .cInt⟩,
              some .fingerCount) ∧
    ((funSigOfName lovetrack_lib "trackpad_poll").map takesCallerArray)
      = some true := by
  decide

/-- Claim C3: the polling and callback headers declare the same per-finger
touch record: both TrackpadFinger structs have exactly the fields id
(int); x, y, vx, vy, angle, major_axis, minor_axis, size (float); state
(int), in the same order with the same types. -/
theorem c3_finger_structs_identical :
    lovetrackFingerFields = trackpadFingerFields ∧
    findDecl lovetrack_lib "TrackpadFinger"
      = some (.structDecl "TrackpadFinger"
          [⟨"id", .cInt⟩, ⟨"x", .cFloat⟩, ⟨"y", .cFloat⟩,
           ⟨"vx", .cFloat⟩, ⟨"vy", .cFloat⟩, ⟨"angle", .cFloat⟩,
           ⟨"major_axis", .cFloat⟩, ⟨"minor_axis", .cFloat⟩,
           ⟨"size", .cFloat⟩, ⟨"state", .cInt⟩]) ∧
    findDecl trackpad_lib "TrackpadFinger"
      = some (.structDecl "TrackpadFinger"
          [⟨"id", .cInt⟩, ⟨"x", .cFloat⟩, ⟨"y", .cFloat⟩,
           ⟨"vx", .cFloat⟩, ⟨"vy", .cFloat⟩, ⟨"angle", .cFloat⟩,
           ⟨"major_axis", .cFloat⟩, ⟨"minor_axis", .cFloat⟩,
           ⟨"size", .cFloat⟩, ⟨"state", .cInt⟩]) := by
  decide

/-- Claim C4, counterexample: the claim that each of the two declared
surfaces consists of the struct plus four functions fails on the callback
header, which declares only two functions (trackpad_start and
trackpad_stop) next to the struct and the TrackpadCallback typedef. -/
theorem c4_counterexample_callback_has_two_functions :
    ¬ ((trackpad_lib.filter Decl.isFun).length = 4) ∧
    (trackpad_lib.filter Decl.isFun).length = 2 := by
  decide

/-- Claim C4, amended: the polling surface consists of the struct
declaration plus four functions, while the callback surface consists of
the struct declaration, one function-pointer typedef, and two
functions. -/
theorem c4_amended_surface_shapes :
    (lovetrack_lib.filter Decl.isStruct).length = 1 ∧
    (lovetrack_lib.filter Decl.isFun).length = 4 ∧
    (lovetrack_lib.filter Decl.isTypedef).length = 0 ∧
    lovetrack_lib.length = 5 ∧
    (trackpad_lib.filter Decl.isStruct).length = 1 ∧
    (trackpad_lib.filter Decl.isFun).length = 2 ∧
    (trackpad_lib.filter Decl.isTypedef).length = 1 ∧
    trackpad_lib.length = 4 := by
  decide

/-- Claim C5, counterexample: the claim that every declared operation
other than the polling variants trackpad_start is declared void fails on
trackpad_poll, which is a declared operation of the polling header with
return type int, not void. -/
theorem c5_counterexample_poll_returns_int :
    retTypeOfName lovetrack_lib "trackpad_poll" = some .cInt ∧
    ¬ (retTypeOfName lovetrack_lib "trackpad_poll" = some .cVoid) ∧
    ((findDecl lovetrack_lib "trackpad_poll").map Decl.isFun) = some true := by
  decide

/-- Claim C5, amended: every declared operation other than the polling
variants trackpad_start and trackpad_poll is declared with return type
void, and no operation other than the polling trackpad_start provides an
error channel: trackpad_poll returns int, but that return is documented as
a finger count and carries no error signal. -/
theorem c5_amended_others_void_no_error_channel :
    (lovetrack_lib.all fun d =>
        !(d.isFun) || d.declName == "trackpad_start" ||
        d.declName == "trackpad_poll" ||
        funSigOf d == some ⟨[⟨"fingers",
            .cPtr (.cNamed "TrackpadFinger") false⟩,
            ⟨"max_fingers", .cInt⟩], .cVoid⟩ ||
        funSigOf d == some ⟨[], .cVoid⟩) = true ∧
    retTypeOfName lovetrack_lib "trackpad_reset" = some .cVoid ∧
    retTypeOfName lovetrack_lib "trackpad_stop" = some .cVoid ∧
    retTypeOfName trackpad_lib "trackpad_start" = some .cVoid ∧
    retTypeOfName trackpad_lib "trackpad_stop" = some .cVoid ∧
    retTypeOfName lovetrack_lib "trackpad_poll" = some .cInt ∧
    errorSignalOfName lovetrack_lib "trackpad_poll" = none ∧
    ((findDecl lovetrack_lib "trackpad_poll").bind retDocOf)
      = some .fingerCount ∧
    ((lovetrack_lib ++ trackpad_lib).filterMap errorSignal)
      = [(0, -1)] := by
  decide

/-- Claim C6: no function in the repository has an implementation body:
the function declarations are exactly trackpad_start, trackpad_poll,
trackpad_reset, trackpad_stop in the polling header and trackpad_start,
trackpad_stop in the callback header, and every declaration of either
header is body-free. -/
theorem c6_declarations_only :
    ((lovetrack_lib.filter Decl.isFun).map Decl.declName)
      = ["trackpad_start", "trackpad_poll", "trackpad_reset",
         "trackpad_stop"] ∧
    ((trackpad_lib.filter Decl.isFun).map Decl.declName)
      = ["trackpad_start", "trackpad_stop"] ∧
    ((lovetrack_lib ++ trackpad_lib).all fun d => !(d.bodyPresent))
      = true := by
  decide

/-- Claim C7: of the two start operations, exactly the polling variant
returns a status code (int, documented 0 on success and -1 on failure),
while the callback variant takes a single TrackpadCallback parameter and
returns void; TrackpadCallback is the function-pointer typedef through
which finger data is delivered. -/
theorem c7_start_variants :
    funSigOfName lovetrack_lib "trackpad_start" = some ⟨[], .cInt⟩ ∧
    ((findDecl lovetrack_lib "trackpad_start").bind retDocOf)
      = some (.statusCode 0 (-1)) ∧
    funSigOfName trackpad_lib "trackpad_start"
      = some ⟨[⟨"callback", .cNamed "TrackpadCallback"⟩], .cVoid⟩ ∧
    errorSignalOfName trackpad_lib "trackpad_start" = none ∧
    findDecl trackpad_lib "TrackpadCallback"
      = some (.typedefFunPtr "TrackpadCallback"
          ⟨[⟨"nFingers", .cInt⟩,
            ⟨"fingers", .cPtr (.cNamed "TrackpadFinger") true⟩],
           .cVoid⟩) := by
  decide

/-- Claim C8: buffer ownership is caller-provided throughout the polling
surface: every function of the polling header whose signature mentions
finger data takes the caller-allocated array pointer together with its int
capacity, the functions that do so are exactly trackpad_poll and
trackpad_reset, and no declared function of either header returns a
pointer (so none hands back a library-owned buffer). -/
theorem c8_caller_owned_buffers :
    (lovetrack_lib.all fun d =>
        match funSigOf d with
        | some s => !(touchesFingerData s) || takesCallerArray s
        | none => true) = true ∧
    ((lovetrack_lib.filter fun d =>
        match funSigOf d with
        | some s => touchesFingerData s
        | none => false).map Decl.declName)
      = ["trackpad_poll", "trackpad_reset"] ∧
    ((lovetrack_lib ++ trackpad_lib).all fun d =>
        match funSigOf d with
        | some s => !(returnsPointer s)
        | none => true) = true := by
  decide

/-- Claim C9: the TrackpadCallback typedef of the callback header receives
the finger array through a pointer to const TrackpadFinger, so the
delivered records cannot be written through that parameter. -/
theorem c9_callback_receives_const_fingers :
    ((findDecl trackpad_lib "TrackpadCallback").map Decl.isTypedef)
      = some true ∧
    ((findDecl trackpad_lib "TrackpadCallback").map
        fun d => match d with
          | .typedefFunPtr _ s => s.params.map fun p =>
              (p.pname, p.ptype, writableThrough p.ptype)
          | _ => [])
      = some [("nFingers", .cInt, false),
              ("fingers", .cPtr (.cNamed "TrackpadFinger") true, false)] := by
  decide

/-- Claim C10: the two trackpad_start declarations have incompatible
types: the polling variant takes no arguments and returns int while the
callback variant takes a TrackpadCallback and returns void, so the same
external name is declared with two incompatible signatures and the two
surfaces cannot both be bound in one translation unit. -/
theorem c10_start_declarations_incompatible :
    funSigOfName lovetrack_lib "trackpad_start" = some ⟨[], .cInt⟩ ∧
    funSigOfName trackpad_lib "trackpad_start"
      = some ⟨[⟨"callback", .cNamed "TrackpadCallback"⟩], .cVoid⟩ ∧
    (∀ a b : FunSig,
      funSigOfName lovetrack_lib "trackpad_start" = some a →
      funSigOfName trackpad_lib "trackpad_start" = some b →
      sigCompatible a b = false) := by
  refine ⟨rfl, rfl, ?_⟩
  intro a b ha hb
  have h1 : funSigOfName lovetrack_lib "trackpad_start"
      = some ⟨[], .cInt⟩ := rfl
  have h2 : funSigOfName trackpad_lib "trackpad_start"
      = some ⟨[⟨"callback", .cNamed "TrackpadCallback"⟩], .cVoid⟩ := rfl
  rw [h1] at ha
  rw [h2] at hb
  injection ha with ha2
  injection hb with hb2
  subst ha2
  subst hb2
  decide

/-- Witness for Claim C10: instantiating the incompatibility statement at
the two concrete signatures read off from the headers. -/
theorem c10_start_declarations_incompatible_witness :
    sigCompatible ⟨[], .cInt⟩
      ⟨[⟨"callback", .cNamed "TrackpadCallback"⟩], .cVoid⟩ = false :=
  c10_start_declarations_incompatible.2.2
    ⟨[], .cInt⟩
    ⟨[⟨"callback", .cNamed "TrackpadCallback"⟩], .cVoid⟩
    (by decide) (by decide)
